import Mathlib

set_option maxRecDepth 16384

/-!
# Verification of the Reddit MCP server tool-dispatch layer (`server.py`)

Shallow embedding of the dispatcher (`handle_call_tool`) and the six tool
handlers of `server.py`.  External effects (the praw Reddit client) are
modelled by an explicit environment `Env` of fetch functions; Python
exceptions are modelled by the `PyExc` type threaded through `Except`.

Modelling conventions:
* Python `dict[str, Any]` argument mappings become association lists of
  `Value` (string / int / bool), with `dict_getitem` (`args[k]`, raising
  `KeyError`) and `dict_get` (`args.get(k, default)`).
* Numeric fields that the handlers only ever interpolate into f-strings
  (`created_utc` timestamps) are carried as their rendered string form;
  fields that are computed with (`score`, `upvote_ratio`, ...) keep a
  numeric type.  `upvote_ratio` is an exact rational standing for the
  float the API returns.
* String interpolation of an exception (`str(e)`) is `PyExc.str`; for
  `KeyError` Python would quote the key, the model keeps the bare key.
* `submission.comments` after `replace_more(limit=0)` (the zero-depth
  placeholder expansion, performed by the external praw library) is
  modelled as the flat comment list the environment hands back; a comment
  node lacking a `body` attribute is a `Comment` with `body = none`.
-/

/-- Python exceptions distinguished by the dispatcher and the handlers. -/
inductive PyExc where
  /-- Python class `praw.exceptions.RedditAPIException` with its `.message`. -/
  | redditAPIException (message : String)
  /-- Python `KeyError` from a missing required argument, e.g. `args["subreddit"]`. -/
  | keyError (key : String)
  /-- Python `ValueError`, raised by the dispatcher for an unknown tool name. -/
  | valueError (msg : String)
  /-- Python `NameError`, raised when an undefined name is evaluated. -/
  | nameError (msg : String)
  /-- any other runtime failure. -/
  | otherError (msg : String)
deriving DecidableEq, Repr

/-- Python `str(e)` as the handlers interpolate it into their error texts. -/
def PyExc.str : PyExc → String
  | .redditAPIException m => m
  | .keyError k => k
  | .valueError m => m
  | .nameError m => m
  | .otherError m => m

/-- A JSON-ish argument value as delivered in the tool-call argument mapping
(the schema of §4.1 only uses strings, integers and booleans). -/
inductive Value where
  | str (s : String)
  | int (n : Int)
  | bool (b : Bool)
deriving DecidableEq, Repr

/-- Python `str(v)` for a `Value`. -/
def Value.asStr : Value → String
  | .str s => s
  | .int n => toString n
  | .bool b => if b then "True" else "False"

/-- Python truthiness of a `Value`. -/
def Value.truthy : Value → Bool
  | .str s => s ≠ ""
  | .int n => n ≠ 0
  | .bool b => b

/-- The integer content of a schema-conformant `limit` argument, clamped to
`Nat`; the comment loop compares a counter starting at 0 against it, so a
negative Python int behaves exactly like 0 does here. -/
def Value.asNat : Value → Nat
  | .int n => n.toNat
  | _ => 0

/-- The argument mapping of one tool invocation (`dict[str, Any]`). -/
abbrev Args := List (String × Value)

/-- Python `args.get(k)` / `args.get(k, None)`: `none` when the key is absent. -/
def args_find (args : Args) (k : String) : Option Value :=
  (args.find? (fun p => p.1 == k)).map (·.2)

/-- Python `args[k]`: raises `KeyError(k)` when the key is absent. -/
def dict_getitem (args : Args) (k : String) : Except PyExc Value :=
  match args_find args k with
  | some v => .ok v
  | none => .error (.keyError k)

/-- Python `args.get(k, d)`. -/
def dict_get (args : Args) (k : String) (d : Value) : Value :=
  (args_find args k).getD d

/-- Result item `mcp.types.TextContent(type="text", text=...)`. -/
structure TextContent where
  type : String
  text : String
deriving DecidableEq, Repr

/-- Concatenation of the pieces a handler accumulates with `output += ...`. -/
def str_join : List String → String
  | [] => ""
  | s :: rest => s ++ str_join rest

/-- Test whether `pat` is a prefix of the character list. -/
def starts_with : List Char → List Char → Bool
  | _, [] => true
  | [], _ :: _ => false
  | c :: cs, d :: ds => c = d && starts_with cs ds

/-- Test whether `pat` occurs contiguously in the character list. -/
def has_sub (pat : List Char) : List Char → Bool
  | [] => pat.isEmpty
  | c :: rest => starts_with (c :: rest) pat || has_sub pat rest

/-- Python `sub in s` (substring containment), used for the
`"reddit.com" in post_id` branch of the id/url resolution. -/
def contains_substr (s sub : String) : Bool :=
  has_sub sub.data s.data

/-- Python `int(x)` on a (here: exact rational) number: truncation toward
zero. -/
def py_int (q : ℚ) : Int :=
  if q < 0 then ⌈q⌉ else ⌊q⌋

/-- Source: `int(upvote_ratio * 100)` (`server.py:261`, `:293`). -/
def upvote_pct (r : ℚ) : Int :=
  py_int (r * 100)

/-- Source: `selftext[:500] + "..." if len(selftext) > 500 else selftext`
(`server.py:248`). -/
def trunc500 (s : String) : String :=
  if s.length > 500 then s.take 500 ++ "..." else s

/-- Source: `body[:300] + "..." if len(body) > 300 else body` (`server.py:312`). -/
def trunc300 (s : String) : String :=
  if s.length > 300 then s.take 300 ++ "..." else s

/-- Source: `selftext[:200] + "..." if len(selftext) > 200 else selftext`
(`server.py:388`, search previews). -/
def trunc200 (s : String) : String :=
  if s.length > 200 then s.take 200 ++ "..." else s

/-- Source: `f"u/{x.author if x.author else '[deleted]'}"` /
`str(post.author) if post.author else "[deleted]"`: the author is a praw
object (truthy) or `None`. -/
def author_str : Option String → String
  | some a => a
  | none => "[deleted]"

/-- A submission as projected by the listing/search handlers. -/
structure Post where
  title : String
  author : Option String
  score : Int
  upvote_ratio : ℚ
  num_comments : Int
  created_utc : String
  url : String
  permalink : String
  id : String
  selftext : String
  subreddit : String
  link_flair_text : Option String
  is_self : Bool
  over_18 : Bool
deriving DecidableEq, Repr

/-- A comment node of the flat sequence obtained after
`replace_more(limit=0)`; `body = none` models a node without a `body`
attribute (a pure placeholder). -/
structure Comment where
  author : Option String
  score : Int
  body : Option String
deriving DecidableEq, Repr

/-- A single submission as fetched by `reddit.submission(...)`, with the
comment sequence it yields after zero-depth placeholder expansion. -/
structure Submission where
  title : String
  author : Option String
  subreddit : String
  score : Int
  upvote_ratio : ℚ
  num_comments : Int
  created_utc : String
  url : String
  permalink : String
  link_flair_text : Option String
  over_18 : Bool
  selftext : String
  comments : List Comment
deriving DecidableEq, Repr

/-- The user profile object (`reddit.redditor(...)` after its lazy fetch). -/
structure Redditor where
  comment_karma : Int
  link_karma : Int
  created_utc : String
  has_verified_email : Bool
  is_employee : Bool
  is_gold : Bool
  is_mod : Bool
  /-- Field `user.subreddit.public_description` when the profile subreddit exists. -/
  profile_description : Option String
deriving DecidableEq, Repr

/-- A community rule (`short_name`, `description`). -/
structure Rule where
  short_name : String
  description : String
deriving DecidableEq, Repr

/-- The subreddit info object used by `get_subreddit_info`. -/
structure SubredditInfo where
  display_name : String
  title : String
  subscribers : Int
  active_user_count : Int
  created_utc : String
  over18 : Bool
  subreddit_type : String
  public_description : String
deriving DecidableEq, Repr

/-- The listing request `get_subreddit_posts` builds from its arguments
(`server.py:225`-`234`): which praw listing method is called and with which
keyword values. -/
inductive SubFetch where
  | hot (limit : Value)
  | new (limit : Value)
  | rising (limit : Value)
  | top (time_filter : Value) (limit : Value)
deriving DecidableEq, Repr

/-- The sort-method dispatch of `server.py:225`-`234`: unknown sort values
fall through to `hot`. -/
def select_posts (sort time_filter limit : Value) : SubFetch :=
  if sort = .str "hot" then .hot limit
  else if sort = .str "new" then .new limit
  else if sort = .str "rising" then .rising limit
  else if sort = .str "top" then .top time_filter limit
  else .hot limit

/-- The external praw client: every network-touching operation the six
handlers perform, as functions that either return data or raise. -/
structure Env where
  /-- iterating a subreddit listing (`subreddit.hot/new/rising/top`). -/
  listing : String → SubFetch → Except PyExc (List Post)
  /-- Call `reddit.submission(id=...)` together with its lazy attribute fetch. -/
  submissionById : String → Except PyExc Submission
  /-- Call `reddit.submission(url=...)` together with its lazy attribute fetch. -/
  submissionByUrl : String → Except PyExc Submission
  /-- Call `scope.search(query, sort=..., time_filter=..., limit=...)`. -/
  searching : String → String → Value → Value → Value → Except PyExc (List Post)
  /-- the primary user fetch (first lazy attribute access on the redditor). -/
  redditor : String → Except PyExc Redditor
  /-- Call `user.submissions.new(limit=10)`: the posts the generator yields and,
  optionally, the exception it then raises (`(_, some e)` covers both a
  fetch that fails immediately and one that fails mid-iteration). -/
  submissionsNew : String → List Post × Option PyExc
  /-- the primary subreddit fetch of `get_subreddit_info`. -/
  subInfo : String → Except PyExc SubredditInfo
  /-- Call `subreddit.rules()`. -/
  rules : String → Except PyExc (List Rule)
  /-- Call `list(subreddit.moderator(limit=10))`, already as `str(mod)` names. -/
  moderators : String → Except PyExc (List String)

/-- Grouping of the digit list (least-significant digit first) into
blocks of three. -/
def group3 : List Char → List (List Char)
  | [] => []
  | c :: rest => ((c :: rest).take 3) :: group3 ((c :: rest).drop 3)
termination_by l => l.length
decreasing_by simp [List.length_drop]; omega

/-- Python `f"{n:,}"`: decimal rendering with thousands separators. -/
def with_commas (n : Int) : String :=
  let digits := (toString n.natAbs).data
  let grouped := ((group3 digits.reverse).map List.reverse).reverse
  (if n < 0 then "-" else "") ++ String.intercalate "," (grouped.map String.mk)

/-- One listing entry of `get_subreddit_posts` after the per-post field
projection (`server.py:238`-`253`). -/
structure PostInfo where
  title : String
  author : String
  score : Int
  upvote_ratio : ℚ
  num_comments : Int
  created_utc : String
  url : String
  permalink : String
  id : String
  selftext : String
  subreddit : String
  flair : Option String
  is_self : Bool
  over_18 : Bool
deriving DecidableEq, Repr

/-- The `post_info` dict built for each listed post (`server.py:238`-`253`). -/
def mk_post_info (post : Post) : PostInfo :=
  { title := post.title
    author := author_str post.author
    score := post.score
    upvote_ratio := post.upvote_ratio
    num_comments := post.num_comments
    created_utc := post.created_utc
    url := post.url
    permalink := "https://reddit.com" ++ post.permalink
    id := post.id
    selftext := trunc500 post.selftext
    subreddit := post.subreddit
    flair := post.link_flair_text
    is_self := post.is_self
    over_18 := post.over_18 }

/-- The Markdown section for the `i`-th listed post (`server.py:259`-`270`). -/
def format_post (i : Nat) (p : PostInfo) : String :=
  "### " ++ toString i ++ ". " ++ p.title ++ "\n" ++
  "- **Author:** u/" ++ p.author ++ "\n" ++
  "- **Score:** " ++ toString p.score ++ " (" ++
    toString (upvote_pct p.upvote_ratio) ++ "% upvoted)\n" ++
  "- **Comments:** " ++ toString p.num_comments ++ "\n" ++
  "- **URL:** " ++ p.url ++ "\n" ++
  "- **Reddit Link:** " ++ p.permalink ++ "\n" ++
  (match p.flair with
   | some f => if f ≠ "" then "- **Flair:** " ++ f ++ "\n" else ""
   | none => "") ++
  (if p.selftext ≠ "" then "- **Text:** " ++ p.selftext ++ "\n" else "") ++
  "- **NSFW:** " ++ (if p.over_18 then "Yes" else "No") ++ "\n" ++
  "- **Post ID:** " ++ p.id ++ "\n\n"

/-- Handler `get_subreddit_posts` (`server.py:214`-`275`).  The `args["subreddit"]`
lookup happens before the `try` block; every failure inside the block is
caught and rendered with the handler's own error text. -/
def get_subreddit_posts (env : Env) (args : Args) : Except PyExc (List TextContent) :=
  match dict_getitem args "subreddit" with
  | .error e => .error e
  | .ok sv =>
    let subreddit_name := sv.asStr
    let sort_method := dict_get args "sort" (.str "hot")
    let time_filter := dict_get args "time_filter" (.str "day")
    let limit := dict_get args "limit" (.int 25)
    match env.listing subreddit_name (select_posts sort_method time_filter limit) with
    | .ok posts =>
      let results := posts.map mk_post_info
      let output :=
        "## Posts from r/" ++ subreddit_name ++ " (sorted by " ++
          sort_method.asStr ++ ")\n\n" ++
        str_join ((results.enumFrom 1).map fun p => format_post p.1 p.2)
      .ok [⟨"text", output⟩]
    | .error e =>
      .ok [⟨"text", "Error fetching posts from r/" ++ subreddit_name ++ ": " ++ e.str⟩]

/-- One rendered comment of the `get_post_details` comments section
(`server.py:310`-`313`); `b` is the comment's body. -/
def format_detail_comment (i : Nat) (c : Comment) (b : String) : String :=
  "**" ++ toString i ++ ".** u/" ++ author_str c.author ++ " " ++
  "(Score: " ++ toString c.score ++ ")\n" ++
  trunc300 b ++ "\n\n"

/-- The loop `for i, comment in enumerate(submission.comments[:10], 1)`
body (`server.py:308`-`313`), started at index `i`: a node without a body
attribute contributes nothing but its index advances. -/
def render_detail_comments : Nat → List Comment → String
  | _, [] => ""
  | i, c :: rest =>
    (match c.body with
     | some b => format_detail_comment i c b
     | none => "") ++ render_detail_comments (i + 1) rest

/-- The comments section of `get_post_details` for the expanded comment
sequence `cs` (`server.py:308`-`313`). -/
def details_comments_section (cs : List Comment) : String :=
  render_detail_comments 1 (cs.take 10)

/-- The header block of `get_post_details` (`server.py:290`-`303`). -/
def detail_header (s : Submission) : String :=
  "## " ++ s.title ++ "\n\n" ++
  "**Author:** u/" ++ author_str s.author ++ "\n" ++
  "**Subreddit:** r/" ++ s.subreddit ++ "\n" ++
  "**Score:** " ++ toString s.score ++ " (" ++
    toString (upvote_pct s.upvote_ratio) ++ "% upvoted)\n" ++
  "**Comments:** " ++ toString s.num_comments ++ "\n" ++
  "**Created:** " ++ s.created_utc ++ "\n" ++
  "**URL:** " ++ s.url ++ "\n" ++
  "**Permalink:** https://reddit.com" ++ s.permalink ++ "\n" ++
  (match s.link_flair_text with
   | some f => if f ≠ "" then "**Flair:** " ++ f ++ "\n" else ""
   | none => "") ++
  "**NSFW:** " ++ (if s.over_18 then "Yes" else "No") ++ "\n\n" ++
  (if s.selftext ≠ "" then "### Post Content\n" ++ s.selftext ++ "\n\n" else "")

/-- Handler `get_post_details` (`server.py:277`-`318`). -/
def get_post_details (env : Env) (args : Args) : Except PyExc (List TextContent) :=
  match dict_getitem args "post_id" with
  | .error e => .error e
  | .ok pv =>
    let post_id := pv.asStr
    let include_comments := dict_get args "include_comments" (.bool false)
    match (if contains_substr post_id "reddit.com"
           then env.submissionByUrl post_id
           else env.submissionById post_id) with
    | .ok s =>
      let output :=
        detail_header s ++
        (if include_comments.truthy
         then "### Top Comments\n\n" ++ details_comments_section s.comments
         else "")
      .ok [⟨"text", output⟩]
    | .error e =>
      .ok [⟨"text", "Error fetching post details: " ++ e.str⟩]

/-- One rendered comment of `get_post_comments` (`server.py:347`-`350`):
`i` is the value of the running counter after its increment, `b` the body. -/
def format_comment (i : Nat) (c : Comment) (b : String) : String :=
  "### Comment " ++ toString i ++ "\n" ++
  "**Author:** u/" ++ author_str c.author ++ "\n" ++
  "**Score:** " ++ toString c.score ++ "\n" ++
  "**Content:** " ++ b ++ "\n\n"

/-- The loop of `server.py:341`-`350` with running counter `count`:
break once `count` reaches `limit`; a node without a body attribute or with
body `"[deleted]"` is skipped without touching the counter. -/
def render_comments (limit : Nat) : List Comment → Nat → String
  | [], _ => ""
  | c :: rest, count =>
    if count ≥ limit then ""
    else
      match c.body with
      | some b =>
        if b = "[deleted]" then render_comments limit rest count
        else format_comment (count + 1) c b ++ render_comments limit rest (count + 1)
      | none => render_comments limit rest count

/-- Handler `get_post_comments` (`server.py:320`-`355`).  Setting
`submission.comment_sort` only influences the ordering of the comment
sequence the external service returns, which the model folds into the
environment-provided `comments` list. -/
def get_post_comments (env : Env) (args : Args) : Except PyExc (List TextContent) :=
  match dict_getitem args "post_id" with
  | .error e => .error e
  | .ok pv =>
    let post_id := pv.asStr
    let sort_method := dict_get args "sort" (.str "best")
    let limit := dict_get args "limit" (.int 50)
    match (if contains_substr post_id "reddit.com"
           then env.submissionByUrl post_id
           else env.submissionById post_id) with
    | .ok s =>
      let output :=
        "## Comments for: " ++ s.title ++ "\n\n" ++
        "**Post by:** u/" ++ author_str s.author ++ " in r/" ++ s.subreddit ++ "\n" ++
        "**Total Comments:** " ++ toString s.num_comments ++ "\n" ++
        "**Sorted by:** " ++ sort_method.asStr ++ "\n\n" ++
        render_comments limit.asNat s.comments 0
      .ok [⟨"text", output⟩]
    | .error e =>
      .ok [⟨"text", "Error fetching comments: " ++ e.str⟩]

/-- One rendered search result (`server.py:394`-`403`); the per-result dict
of `server.py:379`-`389` is inlined into its rendering. -/
def format_search_result (i : Nat) (p : Post) : String :=
  "### " ++ toString i ++ ". " ++ p.title ++ "\n" ++
  "- **Subreddit:** r/" ++ p.subreddit ++ "\n" ++
  "- **Author:** u/" ++ author_str p.author ++ "\n" ++
  "- **Score:** " ++ toString p.score ++ " | **Comments:** " ++
    toString p.num_comments ++ "\n" ++
  "- **URL:** " ++ p.url ++ "\n" ++
  "- **Reddit Link:** https://reddit.com" ++ p.permalink ++ "\n" ++
  (if trunc200 p.selftext ≠ "" then "- **Preview:** " ++ trunc200 p.selftext ++ "\n" else "") ++
  "- **Post ID:** " ++ p.id ++ "\n\n"

/-- Handler `search_reddit` (`server.py:357`-`408`). -/
def search_reddit (env : Env) (args : Args) : Except PyExc (List TextContent) :=
  match dict_getitem args "query" with
  | .error e => .error e
  | .ok qv =>
    let query := qv.asStr
    let subreddit_name := args_find args "subreddit"
    let sort_method := dict_get args "sort" (.str "relevance")
    let time_filter := dict_get args "time_filter" (.str "all")
    let limit := dict_get args "limit" (.int 25)
    let has_scope : Bool := match subreddit_name with
      | some sv => sv.truthy
      | none => false
    let scope := if has_scope then (subreddit_name.getD (.str "")).asStr else "all"
    let search_scope :=
      if has_scope then "r/" ++ (subreddit_name.getD (.str "")).asStr else "All of Reddit"
    match env.searching scope query sort_method time_filter limit with
    | .ok results =>
      if results = [] then
        .ok [⟨"text", "No results found for \x27" ++ query ++ "\x27"⟩]
      else
        let output :=
          "## Search Results for \x27" ++ query ++ "\x27 in " ++ search_scope ++ "\n\n" ++
          "**Sort:** " ++ sort_method.asStr ++ " | **Time Filter:** " ++
            time_filter.asStr ++ " | **Limit:** " ++ limit.asStr ++ "\n\n" ++
          str_join ((results.enumFrom 1).map fun p => format_search_result p.1 p.2)
        .ok [⟨"text", output⟩]
    | .error e =>
      .ok [⟨"text", "Error searching Reddit: " ++ e.str⟩]

/-- The primary profile block of `get_user_profile`
(`server.py:417`-`427`). -/
def profile_block (username : String) (u : Redditor) : String :=
  "## User Profile: u/" ++ username ++ "\n\n" ++
  "**Comment Karma:** " ++ toString u.comment_karma ++ "\n" ++
  "**Link Karma:** " ++ toString u.link_karma ++ "\n" ++
  "**Account Created:** " ++ u.created_utc ++ "\n" ++
  "**Has Verified Email:** " ++ (if u.has_verified_email then "Yes" else "No") ++ "\n" ++
  "**Is Employee:** " ++ (if u.is_employee then "Yes" else "No") ++ "\n" ++
  "**Is Gold:** " ++ (if u.is_gold then "Yes" else "No") ++ "\n" ++
  "**Is Mod:** " ++ (if u.is_mod then "Yes" else "No") ++ "\n" ++
  (match u.profile_description with
   | some d => "**Profile Description:** " ++ d ++ "\n"
   | none => "")

/-- One line of the recent-submissions list (`server.py:433`-`434`). -/
def format_recent_post (i : Nat) (p : Post) : String :=
  toString i ++ ". **" ++ p.title ++ "** in r/" ++ p.subreddit ++ " " ++
  "(Score: " ++ toString p.score ++ ", Comments: " ++ toString p.num_comments ++ ")\n"

/-- The recent-posts section (`server.py:430`-`436`): the lines the
generator yielded before an eventual failure, then the fallback line when
the secondary fetch raised. -/
def recent_posts_section (fetched : List Post × Option PyExc) : String :=
  "\n### Recent Posts (Last 10)\n\n" ++
  str_join ((fetched.1.enumFrom 1).map fun p => format_recent_post p.1 p.2) ++
  (match fetched.2 with
   | some _ => "Recent posts not available\n"
   | none => "")

/-- Handler `get_user_profile` (`server.py:410`-`441`). -/
def get_user_profile (env : Env) (args : Args) : Except PyExc (List TextContent) :=
  match dict_getitem args "username" with
  | .error e => .error e
  | .ok uv =>
    let username := uv.asStr
    match env.redditor username with
    | .ok u =>
      .ok [⟨"text", profile_block username u ++
                    recent_posts_section (env.submissionsNew username)⟩]
    | .error e =>
      .ok [⟨"text", "Error fetching user profile: " ++ e.str⟩]

/-- One rendered community rule (`server.py:468`): the description is cut
to its first 200 characters and an ellipsis marker is appended
unconditionally. -/
def format_rule (i : Nat) (r : Rule) : String :=
  toString i ++ ". **" ++ r.short_name ++ "**: " ++ r.description.take 200 ++ "...\n"

/-- The best-effort rules section (`server.py:463`-`470`): a failing fetch
is swallowed (`except: pass`), an empty rules object renders nothing. -/
def rules_section (fetched : Except PyExc (List Rule)) : String :=
  match fetched with
  | .ok rs =>
    if rs ≠ [] then
      "\n### Rules\n\n" ++ str_join ((rs.enumFrom 1).map fun p => format_rule p.1 p.2)
    else ""
  | .error _ => ""

/-- The best-effort moderators section (`server.py:472`-`480`). -/
def mods_section (fetched : Except PyExc (List String)) : String :=
  match fetched with
  | .ok ms =>
    if ms ≠ [] then
      "\n### Moderators\n" ++
      String.intercalate ", " (ms.filter (fun m => m ≠ "None")) ++ "\n"
    else ""
  | .error _ => ""

/-- Handler `get_subreddit_info` (`server.py:443`-`485`). -/
def get_subreddit_info (env : Env) (args : Args) : Except PyExc (List TextContent) :=
  match dict_getitem args "subreddit" with
  | .error e => .error e
  | .ok sv =>
    let subreddit_name := sv.asStr
    match env.subInfo subreddit_name with
    | .ok info =>
      let base :=
        "## r/" ++ subreddit_name ++ "\n\n" ++
        "**Display Name:** " ++ info.display_name ++ "\n" ++
        "**Title:** " ++ info.title ++ "\n" ++
        "**Subscribers:** " ++ with_commas info.subscribers ++ "\n" ++
        "**Active Users:** " ++ toString info.active_user_count ++ "\n" ++
        "**Created:** " ++ info.created_utc ++ "\n" ++
        "**NSFW:** " ++ (if info.over18 then "Yes" else "No") ++ "\n" ++
        "**Type:** " ++ info.subreddit_type ++ "\n" ++
        (if info.public_description ≠ "" then
          "\n**Description:**\n" ++ info.public_description ++ "\n"
        else "")
      .ok [⟨"text", base ++ rules_section (env.rules subreddit_name) ++
                    mods_section (env.moderators subreddit_name)⟩]
    | .error e =>
      .ok [⟨"text", "Error fetching subreddit info: " ++ e.str⟩]

/-- Dispatcher `handle_call_tool` (`server.py:184`-`212`).  The except
chain is `RedditAPIException` / `RedditException` / `Exception`; the name
`RedditException` is never imported or defined in `server.py` (line 14 only
imports `RedditAPIException` and `PRAWException`), so for any propagating
exception other than a `RedditAPIException`, evaluating the second except
clause raises a `NameError` that escapes the whole try statement — the
remaining `except Exception` clause of the same statement cannot catch it. -/
def handle_call_tool (env : Env) (name : String) (arguments : Args) :
    Except PyExc (List TextContent) :=
  let body : Except PyExc (List TextContent) :=
    if name = "get_subreddit_posts" then get_subreddit_posts env arguments
    else if name = "get_post_details" then get_post_details env arguments
    else if name = "get_post_comments" then get_post_comments env arguments
    else if name = "search_reddit" then search_reddit env arguments
    else if name = "get_user_profile" then get_user_profile env arguments
    else if name = "get_subreddit_info" then get_subreddit_info env arguments
    else .error (.valueError ("Unknown tool: " ++ name))
  match body with
  | .ok r => .ok r
  | .error (.redditAPIException m) => .ok [⟨"text", "Reddit API Error: " ++ m⟩]
  | .error _ => .error (.nameError "name RedditException is not defined")

/-- An environment whose every external call raises `e`: used to observe
the failure paths of the handlers. -/
def fail_env (e : PyExc) : Env :=
  { listing := fun _ _ => .error e
    submissionById := fun _ => .error e
    submissionByUrl := fun _ => .error e
    searching := fun _ _ _ _ _ => .error e
    redditor := fun _ => .error e
    submissionsNew := fun _ => ([], some e)
    subInfo := fun _ => .error e
    rules := fun _ => .error e
    moderators := fun _ => .error e }

/-- The predicate the loop of `get_post_comments` effectively renders by:
the node has a `body` attribute and the body is not the literal
`"[deleted]"` (`server.py:345`). -/
def qualifies (c : Comment) : Bool :=
  match c.body with
  | some b => b != "[deleted]"
  | none => false

/-- Rendering of the detail-view comments section as the spec's words read
(§4.4: "take the first 10 comments that expose a body", placeholders
"skipped silently" without consuming one of the 10 slots), stated for
comparison with `details_comments_section`, which is embedded from the
source. -/
def spec_detail_comments (cs : List Comment) : String :=
  str_join ((((cs.filter fun c => c.body.isSome).take 10).enumFrom 1).map
    fun p => format_detail_comment p.1 p.2 (p.2.body.getD ""))

/-- A fixed profile used to exercise `get_user_profile`. -/
def user0 : Redditor :=
  { comment_karma := 100
    link_karma := 50
    created_utc := "1600000000.0"
    has_verified_email := true
    is_employee := false
    is_gold := false
    is_mod := true
    profile_description := none }

/-- An environment whose primary user fetch succeeds with `user0` while the
secondary recent-submissions fetch raises. -/
def env_c9 : Env :=
  { fail_env (.otherError "boom") with
    redditor := fun _ => .ok user0
    submissionsNew := fun _ => ([], some (.otherError "suspended")) }

/-- Python slicing `s[:n]` returns `s` whole when `len(s) <= n`. -/
theorem py_take_all (s : String) (n : Nat) (h : s.length ≤ n) : s.take n = s := by
  cases s with
  | mk data =>
    rw [String.take_eq]
    exact congrArg String.mk (List.take_of_length_le h)

/-- Characterization of the `get_post_details` comment loop started at any
index: exactly the nodes with a body among the traversed list are rendered,
each at its positional index. -/
theorem render_detail_comments_eq (cs : List Comment) (n : Nat) :
    render_detail_comments n cs =
      str_join ((cs.enumFrom n).filterMap fun p =>
        p.2.body.map fun b => format_detail_comment p.1 p.2 b) := by
  induction cs generalizing n with
  | nil => rfl
  | cons c rest ih =>
    cases hb : c.body with
    | none => simp [render_detail_comments, List.enumFrom, hb, ih]
    | some b => simp [render_detail_comments, List.enumFrom, hb, ih, str_join]

/-- Characterization of the `get_post_comments` loop for any starting value
of the running counter. -/
theorem render_comments_eq_aux (limit : Nat) (cs : List Comment) (count : Nat) :
    render_comments limit cs count =
      str_join ((((cs.filter qualifies).take (limit - count)).enumFrom (count + 1)).map
        fun p => format_comment p.1 p.2 (p.2.body.getD "")) := by
  induction cs generalizing count with
  | nil => simp [render_comments, str_join]
  | cons c rest ih =>
    by_cases hcl : count ≥ limit
    · have h0 : limit - count = 0 := by omega
      simp [render_comments, hcl, h0, str_join]
    · cases hb : c.body with
      | none =>
        have hq : qualifies c = false := by simp [qualifies, hb]
        simp [render_comments, hcl, hb, List.filter_cons, hq, ih]
      | some b =>
        by_cases hdel : b = "[deleted]"
        · have hq : qualifies c = false := by simp [qualifies, hb, hdel]
          simp [render_comments, hcl, hb, hdel, List.filter_cons, hq, ih]
        · have hq : qualifies c = true := by simp [qualifies, hb, hdel]
          obtain ⟨m, hm⟩ : ∃ m, limit - count = m + 1 := ⟨limit - count - 1, by omega⟩
          have hm2 : limit - (count + 1) = m := by omega
          simp [render_comments, hcl, hb, hdel, List.filter_cons, hq, ih, hm, hm2,
            List.enumFrom, str_join]

/-- Claim C1 (refuted by the code; evaluation of the code at the failing
input): for the unregistered tool name `"frobnicate"`, `handle_call_tool`
does not produce a `TextResult` carrying an "unknown tool" error — the
`ValueError` it raises misses the `RedditAPIException` clause, evaluating
the `except RedditException` clause (`server.py:207`, a name never imported
or defined; line 14 imports `PRAWException` instead, unused) raises a
`NameError`, and that `NameError` propagates past the dispatcher boundary
as an unhandled fault. -/
theorem C1_unknown_tool_fault :
    handle_call_tool (fail_env (.otherError "x")) "frobnicate" [] =
      .error (.nameError "name RedditException is not defined") := rfl

/-- Claim C2, counterexample: a structured API error raised by the facade
call inside `get_subreddit_posts` yields the handler's generic error text,
which does not start with the `"Reddit API Error: "` prefix and is
identical to the text produced by a non-API error carrying the same
message — the two prefixes are not distinct. -/
theorem C2_counterexample :
    get_subreddit_posts (fail_env (.redditAPIException "received 403 HTTP response"))
        [("subreddit", Value.str "test")] =
      .ok [⟨"text", "Error fetching posts from r/test: received 403 HTTP response"⟩] ∧
    get_subreddit_posts (fail_env (.otherError "received 403 HTTP response"))
        [("subreddit", Value.str "test")] =
      .ok [⟨"text", "Error fetching posts from r/test: received 403 HTTP response"⟩] ∧
    starts_with "Error fetching posts from r/test: received 403 HTTP response".data
        "Reddit API Error: ".data = false := by
  refine ⟨rfl, rfl, by decide⟩

/-- Claim C2 as amended: for every one of the six tools, an exception
raised by the facade call inside the handler — whether or not it is a
structured API error — is caught by the handler's own catch-all and
rendered with that handler's generic prefix; the prefix does not depend on
the kind of error, so API and non-API errors are not rendered distinctly.
The dispatcher's `"Reddit API Error: "` prefix would apply only to API
errors raised outside a handler's try block, and no facade call is. -/
theorem C2_amended : ∀ (e : PyExc),
    get_subreddit_posts (fail_env e) [("subreddit", Value.str "test")] =
      .ok [⟨"text", "Error fetching posts from r/test: " ++ e.str⟩] ∧
    get_post_details (fail_env e) [("post_id", Value.str "abc123")] =
      .ok [⟨"text", "Error fetching post details: " ++ e.str⟩] ∧
    get_post_comments (fail_env e) [("post_id", Value.str "abc123")] =
      .ok [⟨"text", "Error fetching comments: " ++ e.str⟩] ∧
    search_reddit (fail_env e) [("query", Value.str "hello")] =
      .ok [⟨"text", "Error searching Reddit: " ++ e.str⟩] ∧
    get_user_profile (fail_env e) [("username", Value.str "bob")] =
      .ok [⟨"text", "Error fetching user profile: " ++ e.str⟩] ∧
    get_subreddit_info (fail_env e) [("subreddit", Value.str "test")] =
      .ok [⟨"text", "Error fetching subreddit info: " ++ e.str⟩] := by
  intro e
  refine ⟨?_, ?_, ?_, ?_, ?_, ?_⟩ <;> rfl

/-- Claim C3, counterexample: for a comment sequence of ten body-less
placeholder nodes followed by one comment with a body, the code's comments
section (which slices the first 10 nodes before filtering for a body, so a
placeholder does consume one of the 10 slots) renders nothing, while the
claimed rendering — the first 10 comments of the sequence that expose a
body — renders the bodied comment. -/
theorem C3_counterexample :
    details_comments_section
        (List.replicate 10 ⟨none, 0, none⟩ ++ [⟨some "alice", 5, some "hello"⟩]) ≠
      spec_detail_comments
        (List.replicate 10 ⟨none, 0, none⟩ ++ [⟨some "alice", 5, some "hello"⟩]) := by
  decide

/-- Claim C3 as amended: with include_comments true, the handler renders
those comments among the FIRST 10 NODES of the expanded sequence that
expose a body — a body-less placeholder node among the first 10 consumes
one of the 10 slots (and its index number) even though it renders nothing —
each rendered comment showing author, score, and body truncated to 300
characters (bodies of at most 300 characters are shown unmodified). -/
theorem C3_amended :
    (∀ cs : List Comment,
      details_comments_section cs =
        str_join (((cs.take 10).enumFrom 1).filterMap fun p =>
          p.2.body.map fun b => format_detail_comment p.1 p.2 b)) ∧
    (∀ b : String, b.length ≤ 300 → trunc300 b = b) ∧
    (∀ b : String, 300 < b.length → trunc300 b = b.take 300 ++ "...") := by
  refine ⟨fun cs => render_detail_comments_eq (cs.take 10) 1, fun b h => ?_, fun b h => ?_⟩
  · simp only [trunc300]
    rw [if_neg (by omega)]
  · simp only [trunc300]
    rw [if_pos (by omega)]

/-- Claim C3, witness: a 2-character body is left unmodified by the
300-character truncation. -/
theorem C3_witness : trunc300 "hi" = "hi" :=
  C3_amended.2.1 "hi" (by decide)

/-- Claim C4 (confirmed): in the `get_subreddit_posts` listing projection,
the rendered self-text is the 500-character truncation of the post's
self-text; a self-text longer than 500 characters becomes its first 500
characters followed by the ellipsis marker, and one of length at most 500
(including exactly 500) is rendered unmodified. -/
theorem C4_selftext_truncation :
    (∀ p : Post, (mk_post_info p).selftext = trunc500 p.selftext) ∧
    (∀ s : String, 500 < s.length → trunc500 s = s.take 500 ++ "...") ∧
    (∀ s : String, s.length ≤ 500 → trunc500 s = s) := by
  refine ⟨fun p => rfl, fun s h => ?_, fun s h => ?_⟩
  · simp only [trunc500]; rw [if_pos (by omega)]
  · simp only [trunc500]; rw [if_neg (by omega)]

/-- Claim C4, witness: a self-text of exactly 500 characters is rendered
unmodified. -/
theorem C4_witness :
    trunc500 (String.mk (List.replicate 500 'a')) = String.mk (List.replicate 500 'a') :=
  C4_selftext_truncation.2.2 _ (by decide)

/-- Claim C5, counterexample: a rule description of 7 characters — at most
200, so the claim says it is rendered in full without modification — is
rendered with an appended ellipsis marker (`server.py:468` appends `"..."`
unconditionally). -/
theorem C5_counterexample :
    format_rule 1 ⟨"Civility", "Be nice"⟩ = "1. **Civility**: Be nice...\n" ∧
    "1. **Civility**: Be nice...\n" ≠ "1. **Civility**: Be nice\n" := by
  exact ⟨by decide, by decide⟩

/-- Claim C5 as amended: every community rule is rendered as a numbered
short-name plus the first 200 characters of its description ALWAYS followed
by the ellipsis marker: a description of at most 200 characters appears in
full but still gains the trailing ellipsis, and a longer one is cut to its
first 200 characters before the ellipsis. -/
theorem C5_amended : ∀ (i : Nat) (r : Rule),
    (r.description.length ≤ 200 →
      format_rule i r =
        toString i ++ ". **" ++ r.short_name ++ "**: " ++ r.description ++ "...\n") ∧
    (200 < r.description.length →
      format_rule i r =
        toString i ++ ". **" ++ r.short_name ++ "**: " ++ r.description.take 200 ++ "...\n") := by
  intro i r
  exact ⟨fun h => by simp only [format_rule, py_take_all _ _ h], fun h => rfl⟩

/-- Claim C5, witness: a short rule description is rendered in full but
with the trailing ellipsis marker. -/
theorem C5_witness :
    format_rule 2 ⟨"Spam", "No spam"⟩ =
      toString 2 ++ ". **" ++ "Spam" ++ "**: " ++ "No spam" ++ "...\n" :=
  (C5_amended 2 ⟨"Spam", "No spam"⟩).1 (by decide)

/-- Claim C6 (confirmed): the `get_post_comments` rendering loop over the
expanded flat comment sequence renders, in sequence order, exactly the
first `limit` comments that have a body different from the literal
`"[deleted]"`; body-less nodes and `"[deleted]"` bodies are excluded from
both the render and the running counter, and the rendered comments are
numbered 1, 2, ... by that counter, so skipped comments consume no
number. -/
theorem C6_comment_loop : ∀ (limit : Nat) (cs : List Comment),
    render_comments limit cs 0 =
      str_join ((((cs.filter qualifies).take limit).enumFrom 1).map
        fun p => format_comment p.1 p.2 (p.2.body.getD "")) := by
  intro limit cs
  simpa using render_comments_eq_aux limit cs 0

/-- Claim C7 (confirmed): with sort=top the time_filter argument is part of
the fetch request `get_subreddit_posts` issues, while for sort hot, new or
rising two invocations differing only in the time_filter argument produce
identical results for every environment. -/
theorem C7_time_filter :
    (∀ (tf lim : Value), select_posts (Value.str "top") tf lim = SubFetch.top tf lim) ∧
    (∀ (env : Env) (sv sortv lv tf1 tf2 : Value),
      sortv = Value.str "hot" ∨ sortv = Value.str "new" ∨ sortv = Value.str "rising" →
      get_subreddit_posts env
        [("subreddit", sv), ("sort", sortv), ("time_filter", tf1), ("limit", lv)] =
      get_subreddit_posts env
        [("subreddit", sv), ("sort", sortv), ("time_filter", tf2), ("limit", lv)]) := by
  constructor
  · intro tf lim; rfl
  · intro env sv sortv lv tf1 tf2 h
    rcases h with rfl | rfl | rfl <;> rfl

/-- Claim C7, witness: with sort=hot, changing time_filter from day to week
leaves the result unchanged. -/
theorem C7_witness :
    get_subreddit_posts (fail_env (.otherError "x"))
      [("subreddit", Value.str "python"), ("sort", Value.str "hot"),
       ("time_filter", Value.str "day"), ("limit", Value.int 25)] =
    get_subreddit_posts (fail_env (.otherError "x"))
      [("subreddit", Value.str "python"), ("sort", Value.str "hot"),
       ("time_filter", Value.str "week"), ("limit", Value.int 25)] :=
  C7_time_filter.2 (fail_env (.otherError "x")) (Value.str "python") (Value.str "hot")
    (Value.int 25) (Value.str "day") (Value.str "week") (Or.inl rfl)

/-- Claim C8, counterexample: the rendered upvote percentage is not
obtained by rounding to the nearest integer: at ratio 0.876 the code's
`int(ratio*100)` yields 87 while rounding 87.6 to the nearest integer
yields 88. -/
theorem C8_counterexample :
    upvote_pct (219/250) = 87 ∧ round ((219/250 : ℚ) * 100) = 88 := by
  constructor
  · rw [upvote_pct, py_int, if_neg (by norm_num)]
    norm_num
  · rw [round_eq]
    norm_num

/-- Claim C8 as amended: the upvote percentage is computed by multiplying
the ratio by 100 and truncating toward zero (for the nonnegative ratios the
API produces, the floor); the claim's concrete instances hold: ratio 0.87
yields 87 and ratio 1.0 yields 100. -/
theorem C8_amended :
    upvote_pct (87/100) = 87 ∧ upvote_pct 1 = 100 ∧
    (∀ q : ℚ, 0 ≤ q → upvote_pct q = ⌊q * 100⌋) := by
  refine ⟨?_, ?_, fun q hq => ?_⟩
  · rw [upvote_pct, py_int, if_neg (by norm_num)]
    norm_num
  · rw [upvote_pct, py_int, if_neg (by norm_num)]
    norm_num
  · have h : ¬ (q * 100 < 0) := by
      simp only [not_lt]
      positivity
    simp [upvote_pct, py_int, h]

/-- Claim C8, witness: at the nonnegative ratio 1/4 the percentage is the
floor of 25. -/
theorem C8_witness : upvote_pct (1/4) = ⌊(1/4 : ℚ) * 100⌋ :=
  C8_amended.2.2 (1/4) (by norm_num)

/-- Claim C9 (confirmed): whenever the primary user fetch succeeds and the
secondary recent-submissions fetch raises (after yielding any prefix `ps`
of lines), `get_user_profile` still returns the full primary profile block
followed by the recent-posts header, the yielded lines, and the single
literal fallback line "Recent posts not available" — never an empty or
error-only result. -/
theorem C9_profile_fallback :
    ∀ (env : Env) (args : Args) (username : String) (u : Redditor)
      (ps : List Post) (e : PyExc),
      args_find args "username" = some (Value.str username) →
      env.redditor username = .ok u →
      env.submissionsNew username = (ps, some e) →
      get_user_profile env args =
        .ok [⟨"text", profile_block username u ++ ("\n### Recent Posts (Last 10)\n\n" ++
          str_join ((ps.enumFrom 1).map fun p => format_recent_post p.1 p.2) ++
          "Recent posts not available\n")⟩] := by
  intro env args username u ps e h1 h2 h3
  simp [get_user_profile, dict_getitem, h1, Value.asStr, h2, recent_posts_section, h3]

/-- Claim C9, witness: in `env_c9` the primary fetch succeeds with `user0`,
the secondary fetch raises before yielding anything, and the result is the
profile block plus the fallback line. -/
theorem C9_witness :
    get_user_profile env_c9 [("username", Value.str "bob")] =
      .ok [⟨"text", profile_block "bob" user0 ++ ("\n### Recent Posts (Last 10)\n\n" ++
        str_join ((([] : List Post).enumFrom 1).map fun p => format_recent_post p.1 p.2) ++
        "Recent posts not available\n")⟩] :=
  C9_profile_fallback env_c9 [("username", Value.str "bob")] "bob" user0 []
    (.otherError "suspended") rfl rfl rfl

/-- Claim C10 (confirmed): every handler looks up its required argument
before entering its internal failure boundary, so an invocation whose
argument mapping omits the required key makes the handler return the raw
`KeyError` to the dispatcher boundary instead of producing the
handler-specific error text. -/
theorem C10_required_args :
    ∀ (env : Env) (args : Args),
      (args_find args "subreddit" = none →
        get_subreddit_posts env args = .error (.keyError "subreddit") ∧
        get_subreddit_info env args = .error (.keyError "subreddit")) ∧
      (args_find args "post_id" = none →
        get_post_details env args = .error (.keyError "post_id") ∧
        get_post_comments env args = .error (.keyError "post_id")) ∧
      (args_find args "query" = none →
        search_reddit env args = .error (.keyError "query")) ∧
      (args_find args "username" = none →
        get_user_profile env args = .error (.keyError "username")) := by
  intro env args
  refine ⟨fun h => ⟨?_, ?_⟩, fun h => ⟨?_, ?_⟩, fun h => ?_, fun h => ?_⟩ <;>
    simp [get_subreddit_posts, get_subreddit_info, get_post_details, get_post_comments,
      search_reddit, get_user_profile, dict_getitem, h]

/-- Claim C10, witness: calling `get_subreddit_posts` with an empty
argument mapping produces the escaping `KeyError`, not the handler's
"Error fetching posts from r/..." text. -/
theorem C10_witness :
    get_subreddit_posts (fail_env (.otherError "x")) [] =
      .error (.keyError "subreddit") :=
  ((C10_required_args (fail_env (.otherError "x")) []).1 rfl).1
